import Mathlib

/-!
Verification of the range-splitting arithmetic in
`src/page_reader/data_page_v1/data_page_base.rs` of bolt-parquet-reader.

Embedding notes:
* `usize` values are modelled as `Nat`. Additions are modelled as unbounded
  (the algorithm does not rely on wrapping).
* Each `usize` subtraction `a - b` in the source is guarded: when `b ≤ a`
  the mathematical difference is produced, otherwise the computation is the
  `panicked` outcome, modelling Rust's underflow panic (in release mode the
  wrapped value likewise diverges from the mathematical difference).
* `Result<Option<RowRange>, BoltReaderError>` becomes the three-outcome
  type `RResult` (`ok`, `err`, `panicked`).
-/

namespace BoltParquet

/-- Modelled from the spec: `RowRange` (defined in `utils/row_range_set.rs`,
not part of the provided sources) is an ordered pair `(begin, end)` of row
positions. The spec states the invariant `begin <= end`, which is not
enforced by construction; it appears as a hypothesis where claims need it. -/
structure RowRange where
  begin : Nat
  «end» : Nat
deriving DecidableEq, Repr

/-- Mirror of `RowRange::new`. -/
def RowRange.new (b e : Nat) : RowRange := ⟨b, e⟩

/-- Modelled from the spec: the error type (`utils/exceptions.rs` is not part
of the provided sources); the only variant used by the range resolver is
`FixedLengthDataPageError(String)`. -/
inductive BoltReaderError where
  | FixedLengthDataPageError : String → BoltReaderError
deriving DecidableEq

/-- The descriptor facts of the `DataPage<T>` trait: null-possibility flag,
value count, starting row offset and value type width. The two range
operations are default trait methods over `&self`; their bodies never read
`self`, which the purity claim makes precise. -/
structure DataPage where
  data_page_has_null : Bool
  data_page_num_values : Nat
  data_page_offset : Nat
  data_page_type_size : Nat
deriving DecidableEq, Repr

/-- Outcome of a resolver call: a normal `Result` value, or a panic from
`usize` subtraction underflow. -/
inductive RResult where
  | ok : Option RowRange → RResult
  | err : BoltReaderError → RResult
  | panicked : RResult
deriving DecidableEq

/-- `true` exactly on the `err` outcome. -/
def RResult.isErr : RResult → Bool
  | .err _ => true
  | _ => false

/-- The `Option<RowRange>` carried by an `ok` outcome; `none` otherwise. -/
def RResult.toOption : RResult → Option RowRange
  | .ok o => o
  | _ => none

/-- The message built by the source's `format!` for the range-consistency
error. -/
def rangeErrorMessage (begin page_begin : Nat) : String :=
  "Range processing error. Input range begin: " ++ toString begin ++
    " cannot be smaller than the data page begin: " ++ toString page_begin ++
    " with offset"

/-- Embedding of `DataPage::get_data_page_covered_range`.
Source logic: `begin = row_range.begin + offset`; error when
`begin < page_begin`; when `page_begin <= begin && begin <= page_end`,
return `Some(RowRange::new(row_range.begin, min(row_range.end, page_end - offset)))`
(the subtraction `page_end - offset` is guarded per the embedding notes);
otherwise `None`. -/
def get_data_page_covered_range (self : DataPage) (page_begin page_end offset : Nat)
    (row_range : RowRange) : RResult :=
  if row_range.begin + offset < page_begin then
    .err (BoltReaderError.FixedLengthDataPageError
      (rangeErrorMessage (row_range.begin + offset) page_begin))
  else if page_begin ≤ row_range.begin + offset ∧ row_range.begin + offset ≤ page_end then
    if offset ≤ page_end then
      .ok (some (RowRange.new row_range.begin (min row_range.«end» (page_end - offset))))
    else
      .panicked
  else
    .ok none

/-- Embedding of `DataPage::get_data_page_remaining_range`.
Source logic: `begin = row_range.begin + offset`, `end = row_range.end + offset`;
error when `begin < page_begin`; `None` when `end <= page_end`; otherwise
return `Some(RowRange::new(max(row_range.begin, page_end - offset), row_range.end))`
(the subtraction `page_end - offset` is guarded per the embedding notes). -/
def get_data_page_remaining_range (self : DataPage) (page_begin page_end offset : Nat)
    (row_range : RowRange) : RResult :=
  if row_range.begin + offset < page_begin then
    .err (BoltReaderError.FixedLengthDataPageError
      (rangeErrorMessage (row_range.begin + offset) page_begin))
  else if row_range.«end» + offset ≤ page_end then
    .ok none
  else
    if offset ≤ page_end then
      .ok (some (RowRange.new (max row_range.begin (page_end - offset)) row_range.«end»))
    else
      .panicked

/-- Membership of a row position in an optional range read as an inclusive
interval; a `none` contains no positions. -/
def containsPos (o : Option RowRange) (p : Nat) : Bool :=
  match o with
  | none => false
  | some r => decide (r.begin ≤ p ∧ p ≤ r.«end»)

/-- Membership of a row position in an optional range read as a half-open
interval `[begin, end)`; a `none` contains no positions. -/
def containsPosHO (o : Option RowRange) (p : Nat) : Bool :=
  match o with
  | none => false
  | some r => decide (r.begin ≤ p ∧ p < r.«end»)

/-- A descriptor with the facts of the page used in the repository's tests
(`num_values = 10000`, page row-offset `100`, 8-byte values). -/
def samplePage : DataPage := ⟨false, 10000, 100, 8⟩

/-- C7: on the concrete input `page_begin = 100`, `page_end = 10099`,
`offset = 1000`, `row_range = (1, 100000000)`, `get_data_page_covered_range`
returns `Some (1, 9099)` and `get_data_page_remaining_range` returns
`Some (9099, 100000000)`. -/
theorem resolver_sample_scenario :
    get_data_page_covered_range samplePage 100 10099 1000 (RowRange.new 1 100000000) =
      RResult.ok (some (RowRange.new 1 9099)) ∧
    get_data_page_remaining_range samplePage 100 10099 1000 (RowRange.new 1 100000000) =
      RResult.ok (some (RowRange.new 9099 100000000)) := by
  constructor <;> rfl

/-- C10: both resolver operations are pure functions of
`(page_begin, page_end, offset, row_range)` alone: the result does not
depend on the receiving page object (`self` is never read), so two calls
with identical arguments — on the same or different pages — produce
identical results, including identical failures. -/
theorem resolver_pure_deterministic (d₁ d₂ : DataPage) (page_begin page_end offset : Nat)
    (row_range : RowRange) :
    get_data_page_covered_range d₁ page_begin page_end offset row_range =
      get_data_page_covered_range d₂ page_begin page_end offset row_range ∧
    get_data_page_remaining_range d₁ page_begin page_end offset row_range =
      get_data_page_remaining_range d₂ page_begin page_end offset row_range :=
  ⟨rfl, rfl⟩

/-- C2: each operation returns the range-consistency error exactly when
`row_range.begin + offset < page_begin`, regardless of `page_end` and of
`row_range.end`; outside that condition neither returns an error. -/
theorem range_error_iff_begin_lt_page_begin (d : DataPage) (page_begin page_end offset : Nat)
    (row_range : RowRange) :
    ((get_data_page_covered_range d page_begin page_end offset row_range).isErr = true ↔
      row_range.begin + offset < page_begin) ∧
    ((get_data_page_remaining_range d page_begin page_end offset row_range).isErr = true ↔
      row_range.begin + offset < page_begin) := by
  refine ⟨?_, ?_⟩
  · unfold get_data_page_covered_range
    split_ifs with h1 h2 h3 <;> simp_all [RResult.isErr]
  · unfold get_data_page_remaining_range
    split_ifs with h1 h2 h3 <;> simp_all [RResult.isErr]

/-- C5: when `page_begin ≤ row_range.begin + offset ≤ page_end`,
`get_data_page_covered_range` returns exactly
`(row_range.begin, min(row_range.end, page_end - offset))`. -/
theorem covered_some_eq_clamped (d : DataPage) (page_begin page_end offset : Nat)
    (row_range : RowRange) (h1 : page_begin ≤ row_range.begin + offset)
    (h2 : row_range.begin + offset ≤ page_end) :
    get_data_page_covered_range d page_begin page_end offset row_range =
      RResult.ok (some (RowRange.new row_range.begin
        (min row_range.«end» (page_end - offset)))) := by
  unfold get_data_page_covered_range
  split_ifs with hlt hin hsub
  · omega
  · rfl
  · omega
  · omega

/-- Witness for C5 at `page_begin = 100`, `page_end = 10099`, `offset = 1000`,
`row_range = (1, 5)` (the first repository test scenario). -/
theorem covered_some_eq_clamped_witness :
    100 ≤ 1 + 1000 ∧ 1 + 1000 ≤ 10099 ∧
    get_data_page_covered_range samplePage 100 10099 1000 (RowRange.new 1 5) =
      RResult.ok (some (RowRange.new 1 (min 5 (10099 - 1000)))) :=
  ⟨by decide, by decide,
    covered_some_eq_clamped samplePage 100 10099 1000 (RowRange.new 1 5)
      (by decide) (by decide)⟩

/-- C3: under the precondition `row_range.begin + offset ≥ page_begin`,
`get_data_page_covered_range` returns `None` iff
`row_range.begin + offset > page_end`; when `row_range.begin + offset`
equals `page_end` exactly, it returns `Some` (boundary row covered). -/
theorem covered_none_iff_begin_gt_page_end (d : DataPage) (page_begin page_end offset : Nat)
    (row_range : RowRange) (h : page_begin ≤ row_range.begin + offset) :
    (get_data_page_covered_range d page_begin page_end offset row_range = RResult.ok none ↔
      page_end < row_range.begin + offset) ∧
    (row_range.begin + offset = page_end →
      ∃ r, get_data_page_covered_range d page_begin page_end offset row_range =
        RResult.ok (some r)) := by
  unfold get_data_page_covered_range
  split_ifs with hlt hin hsub
  · omega
  · refine ⟨⟨fun hcontra => by simp at hcontra, fun hgt => by omega⟩, fun _ => ⟨_, rfl⟩⟩
  · omega
  · refine ⟨⟨fun _ => by omega, fun _ => rfl⟩, fun heq => by omega⟩

/-- Witness for C3 at `page_begin = 100`, `page_end = 10099`, `offset = 1000`,
`row_range = (1, 5)`. -/
theorem covered_none_iff_begin_gt_page_end_witness :
    100 ≤ 1 + 1000 ∧
    ((get_data_page_covered_range samplePage 100 10099 1000 (RowRange.new 1 5) =
        RResult.ok none ↔ 10099 < 1 + 1000) ∧
      (1 + 1000 = 10099 →
        ∃ r, get_data_page_covered_range samplePage 100 10099 1000 (RowRange.new 1 5) =
          RResult.ok (some r))) :=
  ⟨by decide,
    covered_none_iff_begin_gt_page_end samplePage 100 10099 1000 (RowRange.new 1 5) (by decide)⟩

/-- C4: under the precondition `row_range.begin + offset ≥ page_begin`,
`get_data_page_remaining_range` returns `None` iff
`row_range.end + offset ≤ page_end`. -/
theorem remaining_none_iff_end_le_page_end (d : DataPage) (page_begin page_end offset : Nat)
    (row_range : RowRange) (h : page_begin ≤ row_range.begin + offset) :
    get_data_page_remaining_range d page_begin page_end offset row_range = RResult.ok none ↔
      row_range.«end» + offset ≤ page_end := by
  unfold get_data_page_remaining_range
  split_ifs with hlt hle hsub
  · omega
  · simp [hle]
  · simp; omega
  · simp; omega

/-- Witness for C4 at `page_begin = 100`, `page_end = 10099`, `offset = 1000`,
`row_range = (1, 5)` (the nonexistent-remaining-range test scenario). -/
theorem remaining_none_iff_end_le_page_end_witness :
    100 ≤ 1 + 1000 ∧
    (get_data_page_remaining_range samplePage 100 10099 1000 (RowRange.new 1 5) =
        RResult.ok none ↔ 5 + 1000 ≤ 10099) :=
  ⟨by decide,
    remaining_none_iff_end_le_page_end samplePage 100 10099 1000 (RowRange.new 1 5) (by decide)⟩

/-- C1 counterexample: with both results read as inclusive ranges, the row
position `9099 = page_end - offset` lies in BOTH the covered result
`(1, 9099)` and the remaining result `(9099, 100000000)` on an input
satisfying the claim's hypotheses (`row_range.begin ≤ row_range.end` and
`row_range.begin + offset ≥ page_begin`), so the "exactly one" partition
fails as stated. -/
theorem partition_inclusive_counterexample :
    1 ≤ 100000000 ∧ 100 ≤ 1 + 1000 ∧ 1 ≤ 9099 ∧ 9099 ≤ 100000000 ∧
    containsPos ((get_data_page_covered_range samplePage 100 10099 1000
      (RowRange.new 1 100000000)).toOption) 9099 = true ∧
    containsPos ((get_data_page_remaining_range samplePage 100 10099 1000
      (RowRange.new 1 100000000)).toOption) 9099 = true := by
  decide

/-- C1 amended: with both results read as half-open ranges `[begin, end)`
(matching how the repository's tests derive `page_end` as
`page_offset + num_values`), and provided `offset ≤ page_end` so that
`get_data_page_remaining_range` does not hit subtraction underflow, every
row position `p` with `row_range.begin ≤ p < row_range.end` lies in exactly
one of the two results: in the covered result iff not in the remaining
result. -/
theorem partition_halfOpen (d : DataPage) (page_begin page_end offset : Nat)
    (row_range : RowRange) (p : Nat)
    (hwf : row_range.begin ≤ row_range.«end»)
    (hpre : page_begin ≤ row_range.begin + offset)
    (hoff : offset ≤ page_end)
    (hp : row_range.begin ≤ p ∧ p < row_range.«end») :
    (containsPosHO ((get_data_page_covered_range d page_begin page_end offset
        row_range).toOption) p = true ↔
      ¬ containsPosHO ((get_data_page_remaining_range d page_begin page_end offset
        row_range).toOption) p = true) := by
  unfold get_data_page_covered_range get_data_page_remaining_range
  split_ifs with h1 h2 h3 h4 <;>
    simp_all [containsPosHO, RResult.toOption, RowRange.new] <;> omega

/-- Witness for the amended C1 on the sample scenario at position `p = 50`. -/
theorem partition_halfOpen_witness :
    (1 ≤ 100000000 ∧ 100 ≤ 1 + 1000 ∧ 1000 ≤ 10099 ∧ (1 ≤ 50 ∧ 50 < 100000000)) ∧
    (containsPosHO ((get_data_page_covered_range samplePage 100 10099 1000
        (RowRange.new 1 100000000)).toOption) 50 = true ↔
      ¬ containsPosHO ((get_data_page_remaining_range samplePage 100 10099 1000
        (RowRange.new 1 100000000)).toOption) 50 = true) :=
  ⟨by decide,
    partition_halfOpen samplePage 100 10099 1000 (RowRange.new 1 100000000) 50
      (by decide) (by decide) (by decide) (by decide)⟩

/-- C6 counterexample: on `page_begin = 0`, `page_end = 5`, `offset = 10`,
`row_range = (0, 0)` the claim's hypotheses hold
(`0 + 10 ≥ 0` and `0 + 10 > 5`), but `get_data_page_remaining_range` hits
`usize` subtraction underflow in `page_end - offset` (a panic in the
source), rather than returning the claimed range. -/
theorem remaining_formula_counterexample :
    0 ≤ 0 + 10 ∧ 5 < 0 + 10 ∧
    get_data_page_remaining_range samplePage 0 5 10 (RowRange.new 0 0) =
      RResult.panicked ∧
    ¬ (get_data_page_remaining_range samplePage 0 5 10 (RowRange.new 0 0) =
      RResult.ok (some (RowRange.new (max 0 (5 - 10)) 0))) := by
  decide

/-- C6 amended: when additionally `offset ≤ page_end` (so `page_end - offset`
cannot underflow), for every input with `row_range.begin + offset ≥ page_begin`
and `row_range.end + offset > page_end`, `get_data_page_remaining_range`
returns exactly `(max(row_range.begin, page_end - offset), row_range.end)`. -/
theorem remaining_some_eq_clamped (d : DataPage) (page_begin page_end offset : Nat)
    (row_range : RowRange) (h1 : page_begin ≤ row_range.begin + offset)
    (h2 : page_end < row_range.«end» + offset) (h3 : offset ≤ page_end) :
    get_data_page_remaining_range d page_begin page_end offset row_range =
      RResult.ok (some (RowRange.new (max row_range.begin (page_end - offset))
        row_range.«end»)) := by
  unfold get_data_page_remaining_range
  split_ifs with hlt hle
  · omega
  · omega
  · rfl

/-- Witness for the amended C6 on the sample scenario. -/
theorem remaining_some_eq_clamped_witness :
    (100 ≤ 1 + 1000 ∧ 10099 < 100000000 + 1000 ∧ 1000 ≤ 10099) ∧
    get_data_page_remaining_range samplePage 100 10099 1000 (RowRange.new 1 100000000) =
      RResult.ok (some (RowRange.new (max 1 (10099 - 1000)) 100000000)) :=
  ⟨by decide,
    remaining_some_eq_clamped samplePage 100 10099 1000 (RowRange.new 1 100000000)
      (by decide) (by decide) (by decide)⟩

/-- C8 counterexample: on `page_begin = 0`, `page_end = 3`, `offset = 7`,
`row_range = (0, 1)` the branch hypotheses hold (`0 + 7 ≥ 0` and
`1 + 7 > 3`), yet `offset ≤ page_end` fails and the subtraction
`page_end - offset` underflows: `get_data_page_remaining_range` panics, so
the operation is not total under the caller precondition alone. -/
theorem remaining_underflow_counterexample :
    0 ≤ 0 + 7 ∧ 3 < 1 + 7 ∧ ¬ (7 ≤ 3) ∧
    get_data_page_remaining_range samplePage 0 3 7 (RowRange.new 0 1) =
      RResult.panicked := by
  decide

/-- C8 amended: when additionally `row_range.begin + offset ≤ page_end`
(the translated range starts within the page, as in every scan where the
current page covers the head of the outstanding range), `offset ≤ page_end`
follows, the subtraction `page_end - offset` cannot underflow, and
`get_data_page_remaining_range` completes without panic. -/
theorem remaining_no_underflow_of_begin_within (d : DataPage)
    (page_begin page_end offset : Nat) (row_range : RowRange)
    (h1 : page_begin ≤ row_range.begin + offset)
    (h2 : row_range.begin + offset ≤ page_end)
    (h3 : page_end < row_range.«end» + offset) :
    offset ≤ page_end ∧
    get_data_page_remaining_range d page_begin page_end offset row_range =
      RResult.ok (some (RowRange.new (max row_range.begin (page_end - offset))
        row_range.«end»)) := by
  refine ⟨by omega, ?_⟩
  unfold get_data_page_remaining_range
  split_ifs with hlt hle hsub
  · omega
  · omega
  · rfl
  · omega

/-- Witness for the amended C8 on the sample scenario. -/
theorem remaining_no_underflow_of_begin_within_witness :
    (100 ≤ 1 + 1000 ∧ 1 + 1000 ≤ 10099 ∧ 10099 < 100000000 + 1000) ∧
    (1000 ≤ 10099 ∧
      get_data_page_remaining_range samplePage 100 10099 1000
          (RowRange.new 1 100000000) =
        RResult.ok (some (RowRange.new (max 1 (10099 - 1000)) 100000000))) :=
  ⟨by decide,
    remaining_no_underflow_of_begin_within samplePage 100 10099 1000
      (RowRange.new 1 100000000) (by decide) (by decide) (by decide)⟩

/-- C9: for a well-formed input range (`begin ≤ end`), any range returned by
either operation is a well-formed sub-interval of the input:
`r.begin ≤ r.end`, `row_range.begin ≤ r.begin` and `r.end ≤ row_range.end`. -/
theorem returned_range_wellformed_subinterval (d : DataPage)
    (page_begin page_end offset : Nat) (row_range r : RowRange)
    (hwf : row_range.begin ≤ row_range.«end»)
    (h : get_data_page_covered_range d page_begin page_end offset row_range =
        RResult.ok (some r) ∨
      get_data_page_remaining_range d page_begin page_end offset row_range =
        RResult.ok (some r)) :
    r.begin ≤ r.«end» ∧ row_range.begin ≤ r.begin ∧ r.«end» ≤ row_range.«end» := by
  rcases h with h | h
  · unfold get_data_page_covered_range at h
    split_ifs at h with h1 h2 h3 <;>
      first
        | (simp only [RResult.ok.injEq, Option.some.injEq] at h
           subst h
           simp only [RowRange.new]
           omega)
        | simp at h
  · unfold get_data_page_remaining_range at h
    split_ifs at h with h1 h2 h3 <;>
      first
        | (simp only [RResult.ok.injEq, Option.some.injEq] at h
           subst h
           simp only [RowRange.new]
           omega)
        | simp at h

/-- Witness for C9 on the first repository test scenario, where the covered
result is `(1, 5)`. -/
theorem returned_range_wellformed_subinterval_witness :
    (1 ≤ 5 ∧
      get_data_page_covered_range samplePage 100 10099 1000 (RowRange.new 1 5) =
        RResult.ok (some (RowRange.new 1 5))) ∧
    ((RowRange.new 1 5).begin ≤ (RowRange.new 1 5).«end» ∧
      (RowRange.new 1 5).begin ≤ (RowRange.new 1 5).begin ∧
      (RowRange.new 1 5).«end» ≤ (RowRange.new 1 5).«end») :=
  ⟨⟨by decide, by decide⟩,
    returned_range_wellformed_subinterval samplePage 100 10099 1000
      (RowRange.new 1 5) (RowRange.new 1 5) (by decide) (Or.inl (by decide))⟩

end BoltParquet
